import Mathlib

/-!
Shallow embedding of the createch_project frontend (precast-yard management
console) for verification of its specification.

The embedding covers:
* a JSON-like value universe (`JVal`) together with JavaScript object
  semantics given as association lists (`objLookup`, `objSet`);
* the scenario submit handler of the simulation page
  (`submitPayload`, `handleSubmit`);
* the backend gateway client operations of `simulationApi.js` and the
  list reads of the equipment and projects pages;
* the telemetry socket client of the yard-data analyzer page
  (`wsStep`, `onMessage`) and its curve-fit action (`handleApproximate`,
  `chartFitBody`);
* the shared `fetchApproximation` helper of `approximationApi.js`.

Platform builtins that the source merely invokes are modelled at their
boundary: `JSON.parse` of a socket frame is the `Option JMsg` input of
`onMessage` (`none` = unparseable data), HTTP transport outcomes are the
`HttpOutcome` input of each gateway operation, and `Number()` coercion of
an input-field string is `jsNumber` (implemented on the decimal-literal
subset produced by the number inputs in use; everything else coerces to
`JNum.nan`, as in JavaScript).
-/

namespace Createch

/-- JavaScript numbers as used by this UI: either NaN or a rational. -/
inductive JNum where
  | nan
  | num (q : ℚ)
deriving Repr, DecidableEq

/-- JSON-like JavaScript values. `vundef` models `undefined`, which is not
produced by JSON parsing but arises from member access on objects lacking
the field. -/
inductive JVal where
  | vundef
  | vnull
  | vbool (b : Bool)
  | vnum (n : JNum)
  | vstr (s : String)
  | varr (elems : List JVal)
  | vobj (fields : List (String × JVal))
deriving Repr

/-- A JavaScript object, as an association list in key-creation order. -/
abbrev Obj := List (String × JVal)

/-- Property read `o[k]` before the `undefined` default: first binding wins
(keys of a JS object are unique, so there is at most one). -/
def objLookup (o : Obj) (k : String) : Option JVal :=
  match o with
  | [] => none
  | (k₀, v) :: rest => if k₀ = k then some v else objLookup rest k

/-- `k in o`. -/
def objMem (o : Obj) (k : String) : Bool :=
  match o with
  | [] => false
  | (k₀, _) :: rest => k₀ = k || objMem rest k

/-- Property write `o[k] = v` (also the semantics of spreading `o` and then
giving `k`, as in `{ ...form, budget: ... }`): an existing binding is
updated in place, otherwise the new binding is appended. -/
def objSet (o : Obj) (k : String) (v : JVal) : Obj :=
  match o with
  | [] => [(k, v)]
  | (k₀, w) :: rest => if k₀ = k then (k, v) :: rest else (k₀, w) :: objSet rest k v

/-- Member access `v.k` on an arbitrary value: `undefined` off objects and
for absent fields (the `null`/`undefined` TypeError case is handled at the
call sites that can receive it). -/
def jsGet (v : JVal) (k : String) : JVal :=
  match v with
  | .vobj fields => (objLookup fields k).getD JVal.vundef
  | _ => JVal.vundef

/-- Digit run to a natural number. -/
def digitsToNat (cs : List Char) : Nat :=
  cs.foldl (fun acc c => acc * 10 + (c.toNat - 48)) 0

/-- The platform builtin `Number()` on strings, on the decimal-literal
subset produced by the number input fields of this UI: optional sign,
digits with an optional fraction; the empty (or all-whitespace) string
coerces to `0` and anything outside the subset to `NaN`. -/
def jsNumber (s : String) : JVal :=
  let t := s.trim
  if t.isEmpty then JVal.vnum (JNum.num 0)
  else
    let (sign, rest) :=
      match t.toList with
      | '-' :: cs => ((-1 : ℚ), cs)
      | '+' :: cs => ((1 : ℚ), cs)
      | cs => ((1 : ℚ), cs)
    let intPart := rest.takeWhile Char.isDigit
    let after := rest.dropWhile Char.isDigit
    match after with
    | [] =>
      if intPart.isEmpty then JVal.vnum JNum.nan
      else JVal.vnum (JNum.num (sign * (digitsToNat intPart : ℚ)))
    | '.' :: fracCs =>
      let frac := fracCs.takeWhile Char.isDigit
      let tail := fracCs.dropWhile Char.isDigit
      if tail.isEmpty && !(intPart.isEmpty && frac.isEmpty) then
        JVal.vnum (JNum.num (sign *
          ((digitsToNat intPart : ℚ) + (digitsToNat frac : ℚ) / 10 ^ frac.length)))
      else JVal.vnum JNum.nan
    | _ => JVal.vnum JNum.nan

/-- The three modes of the simulation page: `"evaluate"`, `"predictTime"`,
`"predictCost"`. -/
inductive Mode where
  | evaluate
  | predictTime
  | predictCost
deriving Repr, DecidableEq

/-- The payload `handleSubmit` dispatches for the active mode:
`form` for evaluate, `{ ...form, budget: Number(extra) }` for predictTime,
`{ ...form, days: Number(extra) }` for predictCost. -/
def submitPayload (mode : Mode) (form : Obj) (extra : String) : Obj :=
  match mode with
  | .evaluate => form
  | .predictTime => objSet form "budget" (jsNumber extra)
  | .predictCost => objSet form "days" (jsNumber extra)

theorem objLookup_objSet_self (o : Obj) (k : String) (v : JVal) :
    objLookup (objSet o k v) k = some v := by
  induction o with
  | nil => simp [objSet, objLookup]
  | cons p rest ih =>
    obtain ⟨k₀, w⟩ := p
    by_cases hk : k₀ = k
    · simp [objSet, hk, objLookup]
    · simp [objSet, hk, objLookup, ih]

theorem objLookup_objSet_ne (o : Obj) (k k' : String) (v : JVal)
    (h : k' ≠ k) :
    objLookup (objSet o k v) k' = objLookup o k' := by
  induction o with
  | nil =>
    have hne : ¬ k = k' := fun hc => h hc.symm
    simp [objSet, objLookup, hne]
  | cons p rest ih =>
    obtain ⟨k₀, w⟩ := p
    by_cases hk : k₀ = k
    · subst hk
      have hne : ¬ k₀ = k' := fun hc => h hc.symm
      simp [objSet, objLookup, hne]
    · simp [objSet, hk, objLookup, ih]

/-- C1: for every mode, form and auxiliary string, the dispatched payload is
the form alone in evaluate mode, and the form merged with the coerced
auxiliary number under `"budget"` / `"days"` in the predict modes; the
evaluate payload never gains the auxiliary field. -/
theorem c1_submit_payload (form : Obj) (extra : String) :
    submitPayload Mode.evaluate form extra = form ∧
    objLookup (submitPayload Mode.predictTime form extra) "budget"
      = some (jsNumber extra) ∧
    objLookup (submitPayload Mode.predictCost form extra) "days"
      = some (jsNumber extra) ∧
    (∀ k, k ≠ "budget" →
      objLookup (submitPayload Mode.predictTime form extra) k = objLookup form k) ∧
    (∀ k, k ≠ "days" →
      objLookup (submitPayload Mode.predictCost form extra) k = objLookup form k) ∧
    (objMem form "budget" = false →
      objMem (submitPayload Mode.evaluate form extra) "budget" = false) ∧
    (objMem form "days" = false →
      objMem (submitPayload Mode.evaluate form extra) "days" = false) := by
  refine ⟨rfl, ?_, ?_, ?_, ?_, fun h => h, fun h => h⟩
  · exact objLookup_objSet_self form "budget" (jsNumber extra)
  · exact objLookup_objSet_self form "days" (jsNumber extra)
  · intro k hk
    exact objLookup_objSet_ne form "budget" k (jsNumber extra) hk
  · intro k hk
    exact objLookup_objSet_ne form "days" k (jsNumber extra) hk

/-- Witness for C1 at a concrete form and auxiliary string. -/
theorem c1_submit_payload_witness :
    objLookup (submitPayload Mode.predictTime [("cement", JVal.vnum (JNum.num 3))] "5")
        "budget" = some (jsNumber "5") ∧
    objLookup (submitPayload Mode.predictTime [("cement", JVal.vnum (JNum.num 3))] "5")
        "cement" = objLookup [("cement", JVal.vnum (JNum.num 3))] "cement" ∧
    objMem (submitPayload Mode.evaluate [("cement", JVal.vnum (JNum.num 3))] "5")
        "budget" = false := by
  refine ⟨(c1_submit_payload _ _).2.1, ?_, ?_⟩
  · exact (c1_submit_payload [("cement", JVal.vnum (JNum.num 3))] "5").2.2.2.1
      "cement" (by decide)
  · exact (c1_submit_payload [("cement", JVal.vnum (JNum.num 3))] "5").2.2.2.2.2.1
      (by decide)

/-- A parsed socket frame, as the yard-data analyzer reads it: the four
field accesses `msg.time`, `msg.temperature`, `msg.temp`, `msg.humidity`
after nullish resolution (`none` = field absent or `null`, the cases in
which `??` falls through); other fields of the frame are never read. -/
structure JMsg where
  time : Option JVal
  temperature : Option JVal
  temp : Option JVal
  humidity : Option JVal
deriving Repr

/-- One telemetry sample of the append-only buffer. -/
structure Sample where
  time : JVal
  temperature : JVal
  humidity : JVal
  point_id : Nat
deriving Repr

/-- The y-axis toggle of the chart: `"temperature"` or `"humidity"`. -/
inductive YMode where
  | temperature
  | humidity
deriving Repr, DecidableEq

/-- Component state of the yard-data analyzer page. `approxFn` is a `JVal`
because JavaScript lets `setApproxFn` store `undefined` when the response
lacks the field; its initial value is the empty string. -/
structure YardState where
  data : List Sample
  mode : YMode
  connected : Bool
  approxFn : JVal
  approxLoading : Bool
  approxError : Option String
  sentMessages : List String
deriving Repr

/-- Initial state of the yard-data analyzer page. -/
def initYardState : YardState :=
  { data := []
    mode := YMode.temperature
    connected := false
    approxFn := JVal.vstr ""
    approxLoading := false
    approxError := none
    sentMessages := [] }

/-- The sample appended for a parsed frame when the buffer has length `n`:
`time: msg.time ?? prev.length`, `temperature: msg.temperature ?? msg.temp
?? 0`, `humidity: msg.humidity ?? 0`, `point_id: prev.length`. -/
def mkSample (msg : JMsg) (n : Nat) : Sample :=
  { time := msg.time.getD (JVal.vnum (JNum.num n))
    temperature := (msg.temperature.orElse (fun _u => msg.temp)).getD
      (JVal.vnum (JNum.num 0))
    humidity := msg.humidity.getD (JVal.vnum (JNum.num 0))
    point_id := n }

/-- The `onmessage` handler: `JSON.parse` of the frame data is modelled at
its boundary as the `Option JMsg` argument, `none` when parsing throws, in
which case the catch block ignores the frame. -/
def onMessage (frame : Option JMsg) (st : YardState) : YardState :=
  match frame with
  | none => st
  | some msg => { st with data := st.data ++ [mkSample msg st.data.length] }

/-- The events the socket delivers to the handlers the page installs. -/
inductive WsEvent where
  | openEvt
  | messageEvt (frame : Option JMsg)
  | errorEvt
  | closeEvt

/-- One step of the socket lifecycle: `onopen` sets connected and sends the
literal greeting, `onmessage` appends to the buffer, `onerror` and
`onclose` clear connected. -/
def wsStep (st : YardState) (e : WsEvent) : YardState :=
  match e with
  | .openEvt => { st with connected := true
                          sentMessages := st.sentMessages ++ ["Hello ESP8266"] }
  | .messageEvt frame => onMessage frame st
  | .errorEvt => { st with connected := false }
  | .closeEvt => { st with connected := false }

/-- Processing a whole event sequence from a state. -/
def runEvents (st : YardState) (es : List WsEvent) : YardState :=
  es.foldl wsStep st

/-- The connection status line rendered at the bottom of the page. -/
def statusDisplay (connected : Bool) : String :=
  if connected then "Connected" else "Disconnected"

/-- An event is a disconnection (error or close). -/
def isDiscEvt : WsEvent → Bool
  | .errorEvt => true
  | .closeEvt => true
  | _ => false

/-- An event is the open event. -/
def isOpenEvt : WsEvent → Bool
  | .openEvt => true
  | _ => false

/-- Single-connection admissibility, a platform guarantee of the WebSocket
API: the `open` event never fires after an `error` or `close` event of the
same connection. -/
def wsAdmissible : List WsEvent → Bool
  | [] => true
  | e :: rest =>
    if isDiscEvt e then rest.all (fun x => !isOpenEvt x) else wsAdmissible rest

theorem onMessage_connected (frame : Option JMsg) (st : YardState) :
    (onMessage frame st).connected = st.connected := by
  cases frame <;> rfl

theorem connected_false_of_no_open (es : List WsEvent) :
    ∀ st : YardState, es.all (fun x => !isOpenEvt x) = true →
      st.connected = false → (runEvents st es).connected = false := by
  induction es with
  | nil => intro st _ h; exact h
  | cons e rest ih =>
    intro st hall hst
    rw [List.all_cons, Bool.and_eq_true] at hall
    have hstep : (wsStep st e).connected = false := by
      cases e with
      | openEvt => simp [isOpenEvt] at hall
      | messageEvt frame => rw [wsStep, onMessage_connected]; exact hst
      | errorEvt => rfl
      | closeEvt => rfl
    exact ih (wsStep st e) hall.2 hstep

theorem connected_false_after_disc (es : List WsEvent) :
    ∀ st : YardState, wsAdmissible es = true → es.any isDiscEvt = true →
      (runEvents st es).connected = false := by
  induction es with
  | nil => intro st _ h; simp at h
  | cons e rest ih =>
    intro st hadm hany
    by_cases hd : isDiscEvt e = true
    · have hall : rest.all (fun x => !isOpenEvt x) = true := by
        simpa [wsAdmissible, hd] using hadm
      have hstep : (wsStep st e).connected = false := by
        cases e with
        | errorEvt => rfl
        | closeEvt => rfl
        | openEvt => simp [isDiscEvt] at hd
        | messageEvt frame => simp [isDiscEvt] at hd
      exact connected_false_of_no_open rest (wsStep st e) hall hstep
    · have hadm' : wsAdmissible rest = true := by
        simpa [wsAdmissible, hd] using hadm
      have hany' : rest.any isDiscEvt = true := by
        rw [List.any_cons, Bool.or_eq_true] at hany
        rcases hany with h | h
        · exact absurd h hd
        · exact h
      exact ih (wsStep st e) hadm' hany'

/-- C8: in every admissible event sequence of the single connection the
page opens, once an error or close event occurs the displayed status is
"Disconnected" when all events are processed, and each error or close
event itself switches the connected flag off — only a fresh `open` event,
which the same connection can never deliver again, sets it back. -/
theorem c8_no_auto_reconnect (es : List WsEvent)
    (hadm : wsAdmissible es = true) (hany : es.any isDiscEvt = true) :
    statusDisplay (runEvents initYardState es).connected = "Disconnected" ∧
    (∀ st : YardState, (wsStep st WsEvent.errorEvt).connected = false ∧
      (wsStep st WsEvent.closeEvt).connected = false) := by
  constructor
  · rw [connected_false_after_disc es initYardState hadm hany]
    rfl
  · intro st
    exact ⟨rfl, rfl⟩

/-- Witness for C8 on the concrete sequence open-then-close. -/
theorem c8_no_auto_reconnect_witness :
    statusDisplay
        (runEvents initYardState [WsEvent.openEvt, WsEvent.closeEvt]).connected
      = "Disconnected" :=
  (c8_no_auto_reconnect [WsEvent.openEvt, WsEvent.closeEvt] rfl rfl).1

theorem pointIds_invariant (es : List WsEvent) :
    ∀ st : YardState,
      st.data.map Sample.point_id = List.range st.data.length →
      (runEvents st es).data.map Sample.point_id
        = List.range (runEvents st es).data.length := by
  induction es with
  | nil => intro st h; exact h
  | cons e rest ih =>
    intro st h
    refine ih (wsStep st e) ?_
    cases e with
    | openEvt => exact h
    | errorEvt => exact h
    | closeEvt => exact h
    | messageEvt frame =>
      cases frame with
      | none => exact h
      | some msg =>
        show (st.data ++ [mkSample msg st.data.length]).map Sample.point_id
          = List.range (st.data ++ [mkSample msg st.data.length]).length
        simp [mkSample, List.range_succ, h]

/-- C2: processing any frame sequence from the initial state leaves the
buffer's `point_id` fields equal to `0, 1, 2, ...` in arrival order; each
accepted frame appends exactly one sample whose `point_id` is the buffer
length before the append, and that id never depends on any field of the
frame (in particular not on its `time`). -/
theorem c2_point_id_strictly_increasing :
    (∀ es : List WsEvent,
      (runEvents initYardState es).data.map Sample.point_id
        = List.range (runEvents initYardState es).data.length) ∧
    (∀ (st : YardState) (msg : JMsg),
      (onMessage (some msg) st).data
        = st.data ++ [mkSample msg st.data.length]) ∧
    (∀ (msg msg' : JMsg) (n : Nat),
      (mkSample msg n).point_id = n ∧
      (mkSample msg n).point_id = (mkSample msg' n).point_id) := by
  refine ⟨?_, fun st msg => rfl, fun msg msg' n => ⟨rfl, rfl⟩⟩
  intro es
  exact pointIds_invariant es initYardState rfl

/-- C3: a frame whose data fails JSON parsing leaves the whole component
state — the sample buffer included — exactly as it was, and the handler
returns normally. -/
theorem c3_unparseable_frame_ignored :
    ∀ st : YardState,
      wsStep st (WsEvent.messageEvt none) = st ∧
      (wsStep st (WsEvent.messageEvt none)).data = st.data ∧
      (wsStep st (WsEvent.messageEvt none)).data.length = st.data.length := by
  intro st
  exact ⟨rfl, rfl, rfl⟩

/-- C6: the sample appended for a parsed frame resolves its fields by
`time ?? prev.length`, `temperature ?? temp ?? 0`, `humidity ?? 0`, and
the frame is appended as exactly one sample at the end of the buffer. -/
theorem c6_field_resolution (st : YardState) (msg : JMsg) (n : Nat) :
    (onMessage (some msg) st).data
      = st.data ++ [mkSample msg st.data.length] ∧
    (∀ v, msg.time = some v → (mkSample msg n).time = v) ∧
    (msg.time = none → (mkSample msg n).time = JVal.vnum (JNum.num n)) ∧
    (∀ v, msg.temperature = some v → (mkSample msg n).temperature = v) ∧
    (∀ v, msg.temperature = none → msg.temp = some v →
      (mkSample msg n).temperature = v) ∧
    (msg.temperature = none → msg.temp = none →
      (mkSample msg n).temperature = JVal.vnum (JNum.num 0)) ∧
    (∀ v, msg.humidity = some v → (mkSample msg n).humidity = v) ∧
    (msg.humidity = none → (mkSample msg n).humidity = JVal.vnum (JNum.num 0)) := by
  refine ⟨rfl, ?_, ?_, ?_, ?_, ?_, ?_, ?_⟩
  · intro v hv; simp [mkSample, hv]
  · intro hv; simp [mkSample, hv]
  · intro v hv; simp [mkSample, hv, Option.orElse]
  · intro v hv hv'; simp [mkSample, hv, hv', Option.orElse]
  · intro hv hv'; simp [mkSample, hv, hv', Option.orElse]
  · intro v hv; simp [mkSample, hv]
  · intro hv; simp [mkSample, hv]

/-- Witness for C6 on a concrete frame carrying only a `temp` field. -/
theorem c6_field_resolution_witness :
    (mkSample ⟨none, none, some (JVal.vnum (JNum.num 7)), none⟩ 4).time
        = JVal.vnum (JNum.num 4) ∧
    (mkSample ⟨none, none, some (JVal.vnum (JNum.num 7)), none⟩ 4).temperature
        = JVal.vnum (JNum.num 7) ∧
    (mkSample ⟨none, none, some (JVal.vnum (JNum.num 7)), none⟩ 4).humidity
        = JVal.vnum (JNum.num 0) := by
  refine ⟨?_, ?_, ?_⟩
  · exact (c6_field_resolution initYardState
      ⟨none, none, some (JVal.vnum (JNum.num 7)), none⟩ 4).2.2.1 rfl
  · exact (c6_field_resolution initYardState
      ⟨none, none, some (JVal.vnum (JNum.num 7)), none⟩ 4).2.2.2.2.1
      (JVal.vnum (JNum.num 7)) rfl rfl
  · exact (c6_field_resolution initYardState
      ⟨none, none, some (JVal.vnum (JNum.num 7)), none⟩ 4).2.2.2.2.2.2.2 rfl

/-- Outcome of one `fetch` call, at the transport boundary: either the
promise rejects (`netError`, carrying the rejection message), or a response
arrives with its `ok` flag and the result of `res.json()` (`Except.error`
when the body fails JSON parsing, carrying that rejection message). -/
inductive HttpOutcome where
  | netError (msg : String)
  | response (ok : Bool) (body : Except String JVal)

/-- The common shape of every `simulationApi.js` operation:
`if (!res.ok) throw new Error(failMsg); return res.json();`. -/
def simFetch (failMsg : String) (o : HttpOutcome) : Except String JVal :=
  match o with
  | .netError m => .error m
  | .response ok body => if ok then body else .error failMsg

/-- `getSignals()` of `simulationApi.js`. -/
def getSignals (o : HttpOutcome) : Except String JVal :=
  simFetch "Failed to fetch signals" o

/-- `evaluateScenario(scenario)` of `simulationApi.js`. -/
def evaluateScenario (scenario : Obj) (o : HttpOutcome) : Except String JVal :=
  simFetch "Failed to evaluate scenario" o

/-- `predictTime(input)` of `simulationApi.js`. -/
def predictTime (input : Obj) (o : HttpOutcome) : Except String JVal :=
  simFetch "Failed to predict time" o

/-- `predictCost(input)` of `simulationApi.js`. -/
def predictCost (input : Obj) (o : HttpOutcome) : Except String JVal :=
  simFetch "Failed to predict cost" o

/-- `getSensitivity(signal, input)` of `simulationApi.js`. -/
def getSensitivity (signal : String) (input : Obj) (o : HttpOutcome) :
    Except String JVal :=
  simFetch "Failed to get sensitivity" o

/-- The equipment-list read of the equipment page:
`fetch(...).then(res => res.json()).then(setEquipment).catch(() =>
setError("Failed to load equipment"))`. `Except.ok` is the value handed
to `setEquipment`; `Except.error` the message handed to `setError`. Note
that `res.ok` is never consulted. -/
def equipmentListLoad (o : HttpOutcome) : Except String JVal :=
  match o with
  | .netError _ => .error "Failed to load equipment"
  | .response _ body =>
    match body with
    | .ok j => .ok j
    | .error _ => .error "Failed to load equipment"

/-- The projects-list read of the projects page, with the same shape as the
equipment read. `res.ok` is never consulted. -/
def projectsListLoad (o : HttpOutcome) : Except String JVal :=
  match o with
  | .netError _ => .error "Failed to load projects"
  | .response _ body =>
    match body with
    | .ok j => .ok j
    | .error _ => .error "Failed to load projects"

/-- Whether an operation result is the failure branch. -/
def isErrorResult : Except String JVal → Bool
  | .error _ => true
  | .ok _ => false

/-- The spec contract applied to one operation: every response with a
non-success status makes the operation fail rather than deliver a parsed
body. -/
def failsOnNonSuccess (f : HttpOutcome → Except String JVal) : Prop :=
  ∀ body : Except String JVal,
    isErrorResult (f (HttpOutcome.response false body)) = true

/-- C4 counterexample: the equipment-list read violates the gateway error
contract — a response with a non-success status and a JSON-parseable body
is delivered as a parsed result, not as a failure. -/
theorem c4_counterexample : ¬ failsOnNonSuccess equipmentListLoad := by
  intro h
  have hc := h (Except.ok (JVal.vobj [("detail", JVal.vstr "Not Found")]))
  simp [equipmentListLoad, isErrorResult] at hc

/-- C4 amended: each of the five `simulationApi.js` operations maps its
single transport outcome per the contract (transport failure or non-success
status fail with a message, success delivers the parsed body), while the
equipment- and projects-list reads deliver the parsed body regardless of
HTTP status and fail, with their fixed message, only on transport failure
or a body that fails JSON parsing. -/
theorem c4_gateway_error_contract (scenario input : Obj) (signal m : String)
    (body : Except String JVal) (j : JVal) (ok : Bool) :
    (getSignals (HttpOutcome.netError m) = Except.error m ∧
     getSignals (HttpOutcome.response false body)
       = Except.error "Failed to fetch signals" ∧
     getSignals (HttpOutcome.response true (Except.ok j)) = Except.ok j) ∧
    (evaluateScenario scenario (HttpOutcome.netError m) = Except.error m ∧
     evaluateScenario scenario (HttpOutcome.response false body)
       = Except.error "Failed to evaluate scenario" ∧
     evaluateScenario scenario (HttpOutcome.response true (Except.ok j))
       = Except.ok j) ∧
    (predictTime input (HttpOutcome.netError m) = Except.error m ∧
     predictTime input (HttpOutcome.response false body)
       = Except.error "Failed to predict time" ∧
     predictTime input (HttpOutcome.response true (Except.ok j))
       = Except.ok j) ∧
    (predictCost input (HttpOutcome.netError m) = Except.error m ∧
     predictCost input (HttpOutcome.response false body)
       = Except.error "Failed to predict cost" ∧
     predictCost input (HttpOutcome.response true (Except.ok j))
       = Except.ok j) ∧
    (getSensitivity signal input (HttpOutcome.netError m) = Except.error m ∧
     getSensitivity signal input (HttpOutcome.response false body)
       = Except.error "Failed to get sensitivity" ∧
     getSensitivity signal input (HttpOutcome.response true (Except.ok j))
       = Except.ok j) ∧
    (equipmentListLoad (HttpOutcome.netError m)
       = Except.error "Failed to load equipment" ∧
     equipmentListLoad (HttpOutcome.response ok (Except.error m))
       = Except.error "Failed to load equipment" ∧
     equipmentListLoad (HttpOutcome.response ok (Except.ok j)) = Except.ok j) ∧
    (projectsListLoad (HttpOutcome.netError m)
       = Except.error "Failed to load projects" ∧
     projectsListLoad (HttpOutcome.response ok (Except.error m))
       = Except.error "Failed to load projects" ∧
     projectsListLoad (HttpOutcome.response ok (Except.ok j)) = Except.ok j) :=
  ⟨⟨rfl, rfl, rfl⟩, ⟨rfl, rfl, rfl⟩, ⟨rfl, rfl, rfl⟩, ⟨rfl, rfl, rfl⟩,
   ⟨rfl, rfl, rfl⟩, ⟨rfl, rfl, rfl⟩, ⟨rfl, rfl, rfl⟩⟩

/-- Modelled from the platform: the TypeError message raised when
destructuring a `null` or `undefined` response body; its exact wording is
browser-defined and never observed by the claims. -/
def destructureNullMessage : String :=
  "Cannot destructure property of null response body"

/-- The `handleApproximate` handler of the yard-data analyzer: resets the
loading, error and overlay state, issues one fit request, and on resolution
stores the response's `function` field (success), or the message
`"Failed to approximate: " + err.message` (thrown non-ok status, transport
failure, body-parse failure, or destructuring of a null body), finally
clearing the loading flag. -/
def approxFailMsg (m : String) : Option String :=
  some ("Failed to approximate: " ++ m)

def handleApproximate (st : YardState) (o : HttpOutcome) : YardState :=
  let st₁ := { st with approxLoading := true
                       approxError := none
                       approxFn := JVal.vstr "" }
  let st₂ :=
    match o with
    | .netError m => { st₁ with approxError := approxFailMsg m }
    | .response ok body =>
      if ok then
        match body with
        | .ok b =>
          match b with
          | .vnull => { st₁ with approxError := approxFailMsg destructureNullMessage }
          | .vundef => { st₁ with approxError := approxFailMsg destructureNullMessage }
          | _ => { st₁ with approxFn := jsGet b "function" }
        | .error m => { st₁ with approxError := approxFailMsg m }
      else
        { st₁ with approxError := approxFailMsg "Failed to approximate" }
  { st₂ with approxLoading := false }

/-- C5: a successful fit response whose `function` field is a string makes
the stored overlay expression exactly that string. -/
theorem c5_overlay_expression (st : YardState)
    (fields : List (String × JVal)) (s : String)
    (h : objLookup fields "function" = some (JVal.vstr s)) :
    (handleApproximate st
        (HttpOutcome.response true (Except.ok (JVal.vobj fields)))).approxFn
      = JVal.vstr s := by
  simp [handleApproximate, jsGet, h]

/-- Witness for C5: the response `{function: "x^2"}` stores exactly
`"x^2"`. -/
theorem c5_overlay_expression_witness :
    (handleApproximate initYardState
        (HttpOutcome.response true
          (Except.ok (JVal.vobj [("function", JVal.vstr "x^2")])))).approxFn
      = JVal.vstr "x^2" :=
  c5_overlay_expression initYardState [("function", JVal.vstr "x^2")] "x^2" rfl

/-- One plot-ready point, as the chart adapter builds it from a sample. -/
structure DPoint where
  x_value : JVal
  y_value : JVal
  point_id : Nat
deriving Repr

/-- `dp`: the buffer mapped to plot points; the y-axis follows the toggled
mode (`mode === "temperature" ? d.temperature : d.humidity`). -/
def dpOf (data : List Sample) (mode : YMode) : List DPoint :=
  data.map (fun d =>
    { x_value := d.time
      y_value := match mode with
                 | .temperature => d.temperature
                 | .humidity => d.humidity
      point_id := d.point_id })

/-- `points`: the pair list `[x_value, y_value]` forwarded to the fit
endpoint. -/
def pointsOf (data : List Sample) (mode : YMode) : JVal :=
  JVal.varr ((dpOf data mode).map (fun d => JVal.varr [d.x_value, d.y_value]))

/-- The body `JSON.stringify({ points, method: "polynomial" })` of the fit
request the chart's Approximate action issues. -/
def chartFitBody (data : List Sample) (mode : YMode) : Obj :=
  [("points", pointsOf data mode), ("method", JVal.vstr "polynomial")]

/-- The body `{ points, method, degree }` of the shared
`fetchApproximation` helper of `approximationApi.js`. -/
def fetchApproximationBody (points : JVal) (method : String) (degree : ℚ) :
    Obj :=
  [("points", points), ("method", JVal.vstr method),
   ("degree", JVal.vnum (JNum.num degree))]

/-- The helper's default `method` argument. -/
def fetchApproximationDefaultMethod : String := "linear"

/-- The helper's default `degree` argument. -/
def fetchApproximationDefaultDegree : ℚ := 2

/-- C10: whatever the y-axis mode and point values, the chart's fit request
body is exactly `{points, method: "polynomial"}` with no `degree` field,
whereas every body the shared `fetchApproximation` helper would build — its
defaults included — carries a `degree` field, so no chart request is a
helper request. -/
theorem c10_chart_fit_request (data : List Sample) (mode : YMode)
    (pts : JVal) (method : String) (degree : ℚ) :
    chartFitBody data mode
      = [("points", pointsOf data mode), ("method", JVal.vstr "polynomial")] ∧
    objLookup (chartFitBody data mode) "degree" = none ∧
    objLookup (chartFitBody data mode) "method"
      = some (JVal.vstr "polynomial") ∧
    objLookup (chartFitBody data mode) "points" = some (pointsOf data mode) ∧
    objLookup (fetchApproximationBody pts method degree) "degree"
      = some (JVal.vnum (JNum.num degree)) ∧
    objLookup (fetchApproximationBody pts fetchApproximationDefaultMethod
        fetchApproximationDefaultDegree) "degree"
      = some (JVal.vnum (JNum.num 2)) ∧
    chartFitBody data mode ≠ fetchApproximationBody pts method degree := by
  refine ⟨rfl, rfl, rfl, rfl, rfl, rfl, ?_⟩
  intro h
  have hlen := congrArg List.length h
  simp [chartFitBody, fetchApproximationBody] at hlen

/-- A signal descriptor as delivered by `getSignals`: name (unique key),
description, bounds and numeric kind. -/
structure Signal where
  name : String
  description : String
  min : ℚ
  max : ℚ
  type : String
deriving Repr, DecidableEq

/-- The defaults loop of the simulation page effect:
`data.signals.forEach(sig => { defaults[sig.name] = sig.min; })` starting
from the empty object. -/
def initialForm (signals : List Signal) : Obj :=
  signals.foldl
    (fun acc sig => objSet acc sig.name (JVal.vnum (JNum.num sig.min))) []

theorem initialForm_lookup_of_not_named (sigs : List Signal) :
    ∀ (acc : Obj) (k : String), (∀ s ∈ sigs, s.name ≠ k) →
      objLookup
        (sigs.foldl
          (fun acc sig => objSet acc sig.name (JVal.vnum (JNum.num sig.min)))
          acc) k
        = objLookup acc k := by
  induction sigs with
  | nil => intro acc k _; rfl
  | cons s rest ih =>
    intro acc k h
    rw [List.foldl_cons]
    rw [ih (objSet acc s.name (JVal.vnum (JNum.num s.min))) k
      (fun t ht => h t (List.mem_cons_of_mem s ht))]
    exact objLookup_objSet_ne acc s.name k _
      (fun hc => h s (List.mem_cons_self s rest) hc.symm)

theorem initialForm_lookup_aux (sigs : List Signal) :
    ∀ (acc : Obj) (sig : Signal), (sigs.map Signal.name).Nodup →
      sig ∈ sigs →
      objLookup
        (sigs.foldl
          (fun acc sig => objSet acc sig.name (JVal.vnum (JNum.num sig.min)))
          acc) sig.name
        = some (JVal.vnum (JNum.num sig.min)) := by
  induction sigs with
  | nil => intro acc sig _ hmem; simp at hmem
  | cons s rest ih =>
    intro acc sig hnd hmem
    rw [List.map_cons, List.nodup_cons] at hnd
    rcases List.mem_cons.mp hmem with heq | hmem'
    · subst heq
      rw [List.foldl_cons]
      rw [initialForm_lookup_of_not_named rest _ sig.name ?hne]
      · exact objLookup_objSet_self acc sig.name _
      · intro t ht hc
        exact hnd.1 (hc ▸ List.mem_map_of_mem Signal.name ht)
    · exact ih _ sig hnd.2 hmem'

/-- C7: after the initial load, the form's value for each declared signal
equals that signal's declared minimum (signal names are unique keys, as the
descriptor contract declares). -/
theorem c7_form_defaults_to_min (signals : List Signal) (sig : Signal)
    (hnd : (signals.map Signal.name).Nodup) (hmem : sig ∈ signals) :
    objLookup (initialForm signals) sig.name
      = some (JVal.vnum (JNum.num sig.min)) :=
  initialForm_lookup_aux signals [] sig hnd hmem

/-- Witness for C7 on a concrete two-signal descriptor list. -/
theorem c7_form_defaults_to_min_witness :
    objLookup
        (initialForm
          [⟨"cement_ratio", "ratio of cement", 1, 10, "float"⟩,
           ⟨"batch_size", "units per batch", 5, 50, "int"⟩])
        "batch_size"
      = some (JVal.vnum (JNum.num 5)) :=
  c7_form_defaults_to_min
    [⟨"cement_ratio", "ratio of cement", 1, 10, "float"⟩,
     ⟨"batch_size", "units per batch", 5, 50, "int"⟩]
    ⟨"batch_size", "units per batch", 5, 50, "int"⟩
    (by decide) (by decide)

/-- Component state of the simulation page. -/
structure SimState where
  signals : List Signal
  form : Obj
  result : Option JVal
  mode : Mode
  extra : String
  loading : Bool
  error : Option String
deriving Repr

/-- Initial state of the simulation page. -/
def initSimState : SimState :=
  { signals := []
    form := []
    result := none
    mode := Mode.evaluate
    extra := ""
    loading := false
    error := none }

/-- The synchronous prefix of `handleSubmit`, run before the request is
dispatched: `setLoading(true); setError(null); setResult(null)`. -/
def handleSubmitStart (st : SimState) : SimState :=
  { st with loading := true, error := none, result := none }

/-- Resolution of the awaited gateway call for the active mode:
`setResult(res)` on success, `setError(err.message)` on failure, and
`setLoading(false)` in the `finally` block either way. -/
def handleSubmitResolve (st : SimState) (outcome : Except String JVal) :
    SimState :=
  match outcome with
  | .ok res => { st with result := some res, loading := false }
  | .error m => { st with error := some m, loading := false }

/-- The whole submit handler, from click to settled request. -/
def handleSubmit (st : SimState) (outcome : Except String JVal) : SimState :=
  handleSubmitResolve (handleSubmitStart st) outcome

/-- C9: every submit clears the prior result and error before dispatching;
a failed submit therefore ends with the result still cleared — never an
error next to a stale result — and the loading flag is false after success
and failure alike. -/
theorem c9_submit_clears_result (st : SimState)
    (outcome : Except String JVal) :
    (handleSubmitStart st).result = none ∧
    (handleSubmitStart st).error = none ∧
    (handleSubmitStart st).loading = true ∧
    (handleSubmit st outcome).loading = false ∧
    (∀ m, outcome = Except.error m →
      (handleSubmit st outcome).result = none ∧
      (handleSubmit st outcome).error = some m) ∧
    (∀ res, outcome = Except.ok res →
      (handleSubmit st outcome).result = some res ∧
      (handleSubmit st outcome).error = none) := by
  refine ⟨rfl, rfl, rfl, ?_, ?_, ?_⟩
  · cases outcome <;> rfl
  · intro m hm; subst hm; exact ⟨rfl, rfl⟩
  · intro res hres; subst hres; exact ⟨rfl, rfl⟩

/-- Witness for C9 on a concrete failing and a concrete succeeding
submit. -/
theorem c9_submit_clears_result_witness :
    (handleSubmit initSimState (Except.error "Failed to evaluate scenario")).result
        = none ∧
    (handleSubmit initSimState (Except.error "Failed to evaluate scenario")).error
        = some "Failed to evaluate scenario" ∧
    (handleSubmit initSimState (Except.ok (JVal.vobj []))).loading = false := by
  refine ⟨?_, ?_, ?_⟩
  · exact ((c9_submit_clears_result initSimState
      (Except.error "Failed to evaluate scenario")).2.2.2.2.1
      "Failed to evaluate scenario" rfl).1
  · exact ((c9_submit_clears_result initSimState
      (Except.error "Failed to evaluate scenario")).2.2.2.2.1
      "Failed to evaluate scenario" rfl).2
  · exact (c9_submit_clears_result initSimState
      (Except.ok (JVal.vobj []))).2.2.2.1

end Createch
